import Mathlib

/-!
Verification of the Docsend slide-capture-and-PDF pipeline
(`src/docsend-pdf-extension`): a shallow embedding of the service worker
(`service_worker.js`), the content script (`content/content.js`) and the
assembler loop, with theorems checking the design document's claims about
them.

Conventions of the embedding:
* machine bytes are `Nat` values (0..255 in real runs; definitions never
  assume it);
* a JavaScript value that may be `undefined` is an `Option`;
* a JavaScript function that may throw returns `Except JsError`;
* the network is an oracle `Nat → HttpResult` giving the response each
  attempt number would observe.
-/

namespace Docsend

/-- Error thrown by JS code: an `HTTP <status>` error object or a transport
failure of `fetch` itself. -/
inductive JsError where
  | http (code : Nat)
  | transport
deriving DecidableEq

/-- What one `fetch` of an image URL can observe: HTTP 429 with an optional
parsed `Retry-After` header, another non-ok status, a transport error, or a
success carrying the body bytes. -/
inductive HttpResult where
  | status429 (retryAfter : Option Nat)
  | httpError (code : Nat)
  | transportError
  | success (bytes : List Nat)
deriving DecidableEq

/-- Result of `fetchImageWithRetry`: returned bytes, the JS value
`undefined` (the loop in the source can fall off its end without returning
or throwing), or a thrown error. -/
inductive FetchOutcome where
  | bytes (b : List Nat)
  | undef
  | err (e : JsError)
deriving DecidableEq

/-- The `for (let attempt = 1; attempt <= maxRetries; attempt++)` loop of
`fetchImageWithRetry` (service_worker.js:18-41). `fuel` is the number of
loop iterations still permitted (`maxRetries - attempt + 1` at the call);
when it reaches 0 the loop exits and the function returns `undefined`.
The second component records the `delay(...)` sleeps in milliseconds, in
order: `retryAfter * 1000 * attempt` after a 429 (the header defaulting to
2) and `1000 * attempt` after a caught error that is not on the last
attempt. -/
def fetchLoop (resp : Nat → HttpResult) (maxRetries : Nat) :
    Nat → Nat → FetchOutcome × List Nat
  | 0, _ => (.undef, [])
  | fuel + 1, attempt =>
    match resp attempt with
    | .status429 ra =>
      let d := ra.getD 2 * 1000 * attempt
      let r := fetchLoop resp maxRetries fuel (attempt + 1)
      (r.1, d :: r.2)
    | .httpError c =>
      if attempt = maxRetries then (.err (.http c), [])
      else
        let r := fetchLoop resp maxRetries fuel (attempt + 1)
        (r.1, 1000 * attempt :: r.2)
    | .transportError =>
      if attempt = maxRetries then (.err .transport, [])
      else
        let r := fetchLoop resp maxRetries fuel (attempt + 1)
        (r.1, 1000 * attempt :: r.2)
    | .success b => (.bytes b, [])

/-- `fetchImageWithRetry(url, maxRetries = 3)` of service_worker.js:18-41,
with the network abstracted as the oracle `resp`. -/
def fetchImageWithRetry (resp : Nat → HttpResult) (maxRetries : Nat) :
    FetchOutcome × List Nat :=
  fetchLoop resp maxRetries maxRetries 1

/-- Network oracle answering HTTP 429 with `Retry-After: hint` on attempts
1-3 and HTTP 200 with body `b` from attempt 4 on. -/
def oracle429then200 (hint : Nat) (b : List Nat) : Nat → HttpResult :=
  fun attempt => if attempt ≤ 3 then .status429 (some hint) else .success b

/-- Network oracle answering HTTP 429 with `Retry-After: 1` on every
attempt. -/
def oracle429always : Nat → HttpResult :=
  fun _ => .status429 (some 1)

/-! Document Assembler: `generatePdf` (service_worker.js:194-224). The page
loop and the PNG-signature branch are translated from the source; the
pdf-lib primitives `embedPng`, `embedJpg` and `save` are not part of the
sources and are modelled from the spec. -/

/-- Image encoding chosen by the assembler for one buffer. -/
inductive ImgKind where
  | png
  | jpeg
deriving DecidableEq

/-- Failure of a pdf-lib embed call (the promise rejecting). -/
inductive AsmErr where
  | embedPngFailed
  | embedJpgFailed
deriving DecidableEq

/-- Result of a pdf-lib embed call: the chosen encoding and the image's
native pixel dimensions, as exposed by `image.width` / `image.height`. -/
structure EmbeddedImage where
  kind : ImgKind
  width : Nat
  height : Nat
deriving DecidableEq

/-- One page of the produced document: its size (`addPage([w, h])`) and the
placement rectangle passed to `drawImage`. -/
structure Page where
  kind : ImgKind
  width : Nat
  height : Nat
  drawX : Nat
  drawY : Nat
  drawW : Nat
  drawH : Nat
deriving DecidableEq

/-- Big-endian 32-bit read at byte offset `i` (out-of-range bytes read 0). -/
def readBe32 (b : List Nat) (i : Nat) : Nat :=
  b.getD i 0 * 2 ^ 24 + b.getD (i + 1) 0 * 2 ^ 16 + b.getD (i + 2) 0 * 2 ^ 8
    + b.getD (i + 3) 0

/-- Big-endian 16-bit read at byte offset `i`. -/
def readBe16 (b : List Nat) (i : Nat) : Nat :=
  b.getD i 0 * 256 + b.getD (i + 1) 0

/-- The canonical 8-byte PNG file signature. -/
def pngSignature : List Nat := [0x89, 0x50, 0x4E, 0x47, 0x0D, 0x0A, 0x1A, 0x0A]

/-- Modelled from the spec: pdf-lib's `embedPng` (the library is shipped
minified as `lib/pdf-lib.min.js` and is not among the sources). It decodes
the PNG header and exposes the image's native pixel dimensions: width and
height are the big-endian 32-bit fields at offsets 16 and 20 of the IHDR
chunk; a buffer without the full signature or too short to hold an IHDR
makes the embed fail. -/
def embedPng (b : List Nat) : Except AsmErr EmbeddedImage :=
  if b.take 8 = pngSignature ∧ 24 ≤ b.length then
    .ok ⟨.png, readBe32 b 16, readBe32 b 20⟩
  else
    .error .embedPngFailed

/-- JPEG start-of-frame marker bytes (0xC0-0xCF except C4, C8, CC). -/
def isSofMarker (m : Nat) : Bool :=
  decide (0xC0 ≤ m) && decide (m ≤ 0xCF) && !(m == 0xC4) && !(m == 0xC8)
    && !(m == 0xCC)

/-- Offset of the first `FF`-prefixed start-of-frame marker in a byte list. -/
def findSof : List Nat → Option Nat
  | x :: m :: rest =>
    if x == 0xFF && isSofMarker m then some 0
    else (findSof (m :: rest)).map (· + 1)
  | _ => none

/-- Modelled from the spec: pdf-lib's `embedJpg` (not among the sources).
It requires the JPEG SOI marker, locates the start-of-frame segment and
exposes the native pixel dimensions stored there (height then width as
big-endian 16-bit fields after the segment length and sample precision);
anything else, including the JS value `undefined`, makes the embed fail. -/
def embedJpg (d : Option (List Nat)) : Except AsmErr EmbeddedImage :=
  match d with
  | none => .error .embedJpgFailed
  | some b =>
    if b.take 2 = [0xFF, 0xD8] then
      match findSof b with
      | some i => .ok ⟨.jpeg, readBe16 b (i + 7), readBe16 b (i + 5)⟩
      | none => .error .embedJpgFailed
    else
      .error .embedJpgFailed

/-- The JS expression `new Uint8Array(imageData)`: a byte view of the
buffer, empty when `imageData` is `undefined`. -/
def jsUint8Array (d : Option (List Nat)) : List Nat := d.getD []

/-- The PNG check of service_worker.js:204: the first four bytes against
0x89 0x50 0x4E 0x47, each comparison false on an out-of-range
(`undefined`) read. -/
def isPngSig4 (b : List Nat) : Bool :=
  b.getD 0 0x100 == 0x89 && b.getD 1 0x100 == 0x50 && b.getD 2 0x100 == 0x4E
    && b.getD 3 0x100 == 0x47

/-- The embed step of the loop body (service_worker.js:200-209): view the
buffer as bytes, test the PNG signature, and embed as PNG or else as
JPEG. -/
def embedImage (d : Option (List Nat)) : Except AsmErr EmbeddedImage :=
  if isPngSig4 (jsUint8Array d) then embedPng (jsUint8Array d) else embedJpg d

/-- The page step of the loop body (service_worker.js:212-220):
`addPage([image.width, image.height])` then `drawImage(image, {x: 0, y: 0,
width: image.width, height: image.height})`. -/
def mkPage (img : EmbeddedImage) : Page :=
  ⟨img.kind, img.width, img.height, 0, 0, img.width, img.height⟩

/-- `generatePdf(imageDataArray)` (service_worker.js:194-224): embed each
buffer in order, one page per buffer; the first rejecting embed rejects the
whole function. Modelled from the spec: `pdfDoc.save()` serializes whatever
pages were added — also zero pages — and the opaque binary is represented
by the page sequence itself. -/
def generatePdf : List (Option (List Nat)) → Except AsmErr (List Page)
  | [] => .ok []
  | d :: rest =>
    match embedImage d with
    | .error e => .error e
    | .ok img =>
      match generatePdf rest with
      | .error e => .error e
      | .ok pages => .ok (mkPage img :: pages)

/-- Big-endian 4-byte encoding of a number. -/
def be32 (n : Nat) : List Nat :=
  [n / 2 ^ 24 % 256, n / 2 ^ 16 % 256, n / 2 ^ 8 % 256, n % 256]

/-- Big-endian 2-byte encoding of a number. -/
def be16 (n : Nat) : List Nat := [n / 256 % 256, n % 256]

/-- A minimal PNG for given pixel dimensions: signature, IHDR length and
tag, then the width and height fields. -/
def pngBytesFor (w h : Nat) : List Nat :=
  pngSignature ++ [0, 0, 0, 13] ++ [0x49, 0x48, 0x44, 0x52] ++ be32 w ++ be32 h

/-- A minimal JPEG for given pixel dimensions: SOI marker, then an SOF0
segment carrying height and width. -/
def jpegBytesFor (w h : Nat) : List Nat :=
  [0xFF, 0xD8, 0xFF, 0xC0, 0x00, 0x11, 0x08] ++ be16 h ++ be16 w

/-! Page Locator and gate check: `getSlideInfo`, `isAuthRequired` and the
GET_SLIDE_INFO message handler (content/content.js). The DOM is abstracted
into a `DocView` record holding exactly the observations those functions
make of it. -/

/-- Computed style and bounding box of one DOM element, as consulted by
`isAuthRequired`: whether `display` is `none`, whether `visibility` is
`hidden`, and `getBoundingClientRect().height`. -/
structure ElemView where
  displayNone : Bool
  visibilityHidden : Bool
  rectHeight : Nat
deriving DecidableEq

/-- The observations the content script makes of the loaded document view.
`pageLabelMatch` is the `{current, total}` pair parsed by the heuristic-1
regex from the first matching page-label element, if any; `bodyTextMatch`
the first pair the heuristic-2 regex finds in `document.body.innerText`;
`thumbnailCounts` the `querySelectorAll(...).length` values for the
heuristic-3 selectors in order; `scriptPageCount` the page count the
heuristic-4 regex finds in inline script content. -/
structure DocView where
  emailInput : Option ElemView
  gateContainers : List ElemView
  pageLabelMatch : Option (Nat × Nat)
  bodyTextMatch : Option (Nat × Nat)
  thumbnailCounts : List Nat
  scriptPageCount : Option Nat
  docTitle : String

/-- Visibility test applied to the email input (content.js:15): display,
visibility and a nonzero bounding-box height. -/
def elemVisibleWithBox (s : ElemView) : Bool :=
  !s.displayNone && !s.visibilityHidden && decide (0 < s.rectHeight)

/-- Visibility test applied to the gate containers (content.js:33): display
and visibility only — no bounding-box check. -/
def elemVisible (s : ElemView) : Bool :=
  !s.displayNone && !s.visibilityHidden

/-- `isAuthRequired()` (content.js:8-40): a visible email input (with
nonzero box height) or any gate-selector element whose computed style is
not hidden. -/
def isAuthRequired (d : DocView) : Bool :=
  (match d.emailInput with
   | some s => elemVisibleWithBox s
   | none => false)
  || d.gateContainers.any elemVisible

/-- Heuristics 3-5 of `getSlideInfo` (content.js:85-120): the first
thumbnail selector matching more than one element wins with
`{current: 1, total: count}`; else an embedded script page count wins with
`{current: 1, total: n}`; else the function returns null (heuristic 5 only
logs). -/
def slideInfoFrom3 (d : DocView) : Option (Nat × Nat) :=
  match d.thumbnailCounts.find? (fun n => decide (1 < n)) with
  | some n => some (1, n)
  | none =>
    match d.scriptPageCount with
    | some n => some (1, n)
    | none => none

/-- Heuristic 2 of `getSlideInfo` (content.js:73-83): accept the body-text
pair only under the sanity bounds `1 ≤ total ≤ 500` and
`1 ≤ current ≤ total`, else fall through. -/
def slideInfoFrom2 (d : DocView) : Option (Nat × Nat) :=
  match d.bodyTextMatch with
  | some (c, t) =>
    if 1 ≤ t ∧ t ≤ 500 ∧ 1 ≤ c ∧ c ≤ t then some (c, t) else slideInfoFrom3 d
  | none => slideInfoFrom3 d

/-- `getSlideInfo()` (content.js:45-121): heuristic 1 returns the parsed
page-label pair unconditionally; otherwise the later heuristics run. -/
def getSlideInfo (d : DocView) : Option (Nat × Nat) :=
  match d.pageLabelMatch with
  | some p => some p
  | none => slideInfoFrom2 d

/-- Response sent for a GET_SLIDE_INFO message. -/
inductive SlideInfoResponse where
  | info (currentSlide totalSlides : Nat) (documentTitle : String)
  | authRequired
  | failure (msg : String)
deriving DecidableEq

/-- The error message of content.js:290. -/
def undetectableMsg : String :=
  "Could not detect slides on this page. Try refreshing."

/-- The GET_SLIDE_INFO branch of the message listener (content.js:269-292):
slide info first; only when it is null is the gate consulted, and only when
that also fails is the undetectable error sent. -/
def handleGetSlideInfo (d : DocView) : SlideInfoResponse :=
  match getSlideInfo d with
  | some (c, t) => .info c t d.docTitle
  | none =>
    if isAuthRequired d then .authRequired else .failure undetectableMsg

/-- Formalisation of the claim's own gating-visibility criterion, for
comparison with `isAuthRequired`: computed display/visibility AND a nonzero
bounding box, for either kind of gating control. -/
def claimGateVisible (d : DocView) : Bool :=
  (match d.emailInput with
   | some s => elemVisibleWithBox s
   | none => false)
  || d.gateContainers.any elemVisibleWithBox

/-! Filename sanitisation inside `downloadPdf` (service_worker.js:234-238):
`filename.replace(/[<>:"\/\\|?*]/g, '').replace(/\s+/g, '-')
.substring(0, 100) || 'docsend-presentation'`. -/

/-- The characters removed by the first `replace`. -/
def illegalChars : List Char := ['<', '>', ':', '"', '/', '\\', '|', '?', '*']

/-- Membership in the stripped character class. -/
def isIllegalChar (c : Char) : Bool := illegalChars.contains c

/-- The JS regex class `\s`: ASCII whitespace, NBSP, the Unicode space
separators, line and paragraph separators, and the BOM. -/
def isJsWhitespace (c : Char) : Bool :=
  c == ' ' || c == '\t' || c == '\n' || c == '\r'
    || c.toNat == 0x0B || c.toNat == 0x0C || c.toNat == 0xA0
    || c.toNat == 0x1680
    || (decide (0x2000 ≤ c.toNat) && decide (c.toNat ≤ 0x200A))
    || c.toNat == 0x2028 || c.toNat == 0x2029 || c.toNat == 0x202F
    || c.toNat == 0x205F || c.toNat == 0x3000 || c.toNat == 0xFEFF

/-- The global `replace(/\s+/g, '-')` as a left-to-right scan: `inRun`
records whether the previous character was whitespace, so that each maximal
whitespace run emits exactly one hyphen. -/
def collapseRun : Bool → List Char → List Char
  | _, [] => []
  | inRun, c :: rest =>
    if isJsWhitespace c then
      (if inRun then [] else ['-']) ++ collapseRun true rest
    else
      c :: collapseRun false rest

/-- The `safeName` expression of `downloadPdf` (service_worker.js:235-238):
strip illegal filename characters, collapse whitespace runs to hyphens,
truncate to 100 characters, and default when the result is empty. -/
def safeName (filename : String) : String :=
  let stripped := filename.toList.filter (fun c => !isIllegalChar c)
  let collapsed := collapseRun false stripped
  let truncated := collapsed.take 100
  if truncated.isEmpty then "docsend-presentation" else String.mk truncated

/-- Collapsing, for an arbitrary character class `p`: each maximal run of
`p`-characters becomes a single hyphen — a `p`-character emits one hyphen
and swallows the remainder of its run. -/
def collapseMaximalRuns (p : Char → Bool) : List Char → List Char
  | [] => []
  | c :: rest =>
    if p c then
      '-' :: collapseMaximalRuns p (rest.dropWhile p)
    else
      c :: collapseMaximalRuns p rest
termination_by l => l.length
decreasing_by
  · have h := (List.dropWhile_suffix (l := rest) p).length_le
    simp only [List.length_cons]
    omega
  · simp only [List.length_cons]
    omega

/-- The spec's wording of the collapse step: every maximal whitespace run
becomes a single hyphen. -/
def specCollapseWs (l : List Char) : List Char :=
  collapseMaximalRuns isJsWhitespace l

/-- The spec-worded filename derivation, to be compared with `safeName`. -/
def specSafeName (filename : String) : String :=
  let stripped := filename.toList.filter (fun c => !isIllegalChar c)
  let truncated := (specCollapseWs stripped).take 100
  if truncated = [] then "docsend-presentation" else String.mk truncated

/-! Capture Orchestrator: `startCapture` and its helpers
(service_worker.js:131-189, 254-297). Message sends to the content script
are abstracted into an environment record carrying the responses they would
produce. -/

/-- The `activeCapture` record (service_worker.js:260): the only state
stored for the in-flight session. -/
structure Session where
  tabId : Nat
  totalSlides : Nat
deriving DecidableEq

/-- Error reported through `sendError` (the CAPTURE_ERROR message): the
busy rejection, a thrown network error, or an assembly failure. -/
inductive CaptureError where
  | busy
  | network (e : JsError)
  | assembly (e : AsmErr)
deriving DecidableEq

/-- The observable outcome of one `startCapture` call: a CAPTURE_ERROR
message, or completion with the assembled document and the download
filename. -/
inductive CaptureOutcome where
  | failure (e : CaptureError)
  | complete (pdf : List Page) (filename : String)
deriving DecidableEq

/-- Environment of one capture run: the GET_DOCUMENT_TITLE response, the
FETCH_SLIDE_URLS response (`none` inside `ok` when the reply carries no
`urls` array), the per-URL network oracle used by `fetchImageWithRetry`
(indexed by position in the URL list, then by attempt number), and the
buffers `captureViaScreenshots` would produce. -/
structure OrchEnv where
  titleResp : Except JsError (Option String)
  apiResp : Except JsError (Option (List String))
  fetchOracle : Nat → Nat → HttpResult
  screenshots : Except JsError (List (List Nat))

/-- `fetchSlideUrlsViaApi` (service_worker.js:131-145): null when the
message throws or the reply has no `urls` whose length equals
`totalSlides`. -/
def fetchSlideUrlsViaApi (resp : Except JsError (Option (List String)))
    (totalSlides : Nat) : Option (List String) :=
  match resp with
  | .error _ => none
  | .ok none => none
  | .ok (some urls) => if urls.length = totalSlides then some urls else none

/-- The loop of `fetchImagesFromUrls` (service_worker.js:179-189), from URL
index `i`: each URL is fetched through `fetchImageWithRetry` with the
default budget of 3; a thrown error propagates, and the possibly-undefined
return value is pushed as is. -/
def fetchImagesLoop (oracle : Nat → Nat → HttpResult) :
    Nat → List String → Except JsError (List (Option (List Nat)))
  | _, [] => .ok []
  | i, _ :: rest =>
    match (fetchImageWithRetry (oracle i) 3).1 with
    | .bytes b =>
      match fetchImagesLoop oracle (i + 1) rest with
      | .ok imgs => .ok (some b :: imgs)
      | .error e => .error e
    | .undef =>
      match fetchImagesLoop oracle (i + 1) rest with
      | .ok imgs => .ok (none :: imgs)
      | .error e => .error e
    | .err e => .error e

/-- `fetchImagesFromUrls(urls)` (service_worker.js:179-189). -/
def fetchImagesFromUrls (oracle : Nat → Nat → HttpResult)
    (urls : List String) : Except JsError (List (Option (List Nat))) :=
  fetchImagesLoop oracle 0 urls

/-- `startCapture(tabId, totalSlides)` (service_worker.js:254-297),
returning the observable outcome and the final `activeCapture` value. A
busy rejection leaves the active session in place and touches nothing
else; otherwise the title is resolved (`titleResponse.title ||
'docsend-presentation'`), the API strategy is chosen exactly when
`fetchSlideUrlsViaApi` returned URLs, any error thrown by the chosen image
source or by `generatePdf` reaches the catch block and is reported through
`sendError`, and the finally block always clears `activeCapture`. -/
def startCapture (active : Option Session) (env : OrchEnv)
    (tabId totalSlides : Nat) : CaptureOutcome × Option Session :=
  match active with
  | some s => (.failure .busy, some s)
  | none =>
    match env.titleResp with
    | .error e => (.failure (.network e), none)
    | .ok topt =>
      let documentTitle :=
        match topt with
        | some t => if t = "" then "docsend-presentation" else t
        | none => "docsend-presentation"
      let imgs : Except JsError (List (Option (List Nat))) :=
        match fetchSlideUrlsViaApi env.apiResp totalSlides with
        | some urls => fetchImagesFromUrls env.fetchOracle urls
        | none =>
          match env.screenshots with
          | .ok shots => .ok (shots.map some)
          | .error e => .error e
      match imgs with
      | .error e => (.failure (.network e), none)
      | .ok arr =>
        match generatePdf arr with
        | .error e => (.failure (.assembly e), none)
        | .ok pages =>
          (.complete pages (safeName documentTitle ++ ".pdf"), none)

/-- Environment for the direct-link failure scenario: the URL list is
obtained in full, every byte fetch dies on transport, and the
rendered-capture path would succeed with one valid PNG screenshot. -/
def c1Env : OrchEnv where
  titleResp := .ok (some "Deck")
  apiResp := .ok (some ["u1"])
  fetchOracle := fun _ _ => .transportError
  screenshots := .ok [pngBytesFor 800 600]

/-- The same environment with the URL listing unavailable, forcing the
screenshot fallback path. -/
def c1EnvNoApi : OrchEnv where
  titleResp := .ok (some "Deck")
  apiResp := .ok none
  fetchOracle := fun _ _ => .transportError
  screenshots := .ok [pngBytesFor 800 600]

/-- Document view whose only page information is a body-text match, used to
exercise heuristic 2. -/
def bodyDoc : DocView := ⟨none, [], none, some (2, 10), [], none, "t"⟩

/-- Document view whose page-label element parses to a pair violating both
heuristic-2 bounds (current 700 > total 600 and total 600 > 500). -/
def labelDoc : DocView := ⟨none, [], some (700, 600), none, [], none, "t"⟩

/-- Document view with no page information and a gate container whose
computed style is visible but whose bounding box has zero height. -/
def gateDocZeroBox : DocView := ⟨none, [⟨false, false, 0⟩], none, none, [], none, "t"⟩

/-- Document view with no page information and a visible email input. -/
def gateDocEmail : DocView := ⟨some ⟨false, false, 10⟩, [], none, none, [], none, "t"⟩

/-! Helper lemmas shared by the claim theorems. -/

/-- Unfolding one 429 iteration of the retry loop: the sleep is
`retryAfter * 1000 * attempt` milliseconds and the loop moves on to the
next attempt with one unit of budget consumed. -/
theorem fetchLoop_429_step (resp : Nat → HttpResult) (m fuel attempt : Nat)
    (ra : Option Nat) (h : resp attempt = .status429 ra) :
    fetchLoop resp m (fuel + 1) attempt
      = ((fetchLoop resp m fuel (attempt + 1)).1,
          ra.getD 2 * 1000 * attempt
            :: (fetchLoop resp m fuel (attempt + 1)).2) := by
  simp [fetchLoop, h]

/-- A successful `embedPng` always reports kind PNG. -/
theorem embedPng_kind (b : List Nat) (img : EmbeddedImage)
    (h : embedPng b = .ok img) : img.kind = .png := by
  unfold embedPng at h
  split at h
  · injection h with h2
    subst h2
    rfl
  · exact Except.noConfusion h

/-- A successful `embedJpg` always reports kind JPEG. -/
theorem embedJpg_kind (d : Option (List Nat)) (img : EmbeddedImage)
    (h : embedJpg d = .ok img) : img.kind = .jpeg := by
  cases d with
  | none => exact Except.noConfusion h
  | some b =>
    by_cases ht : b.take 2 = [0xFF, 0xD8]
    · cases hf : findSof b with
      | some i =>
        have h2 :
            Except.ok (⟨.jpeg, readBe16 b (i + 7), readBe16 b (i + 5)⟩ : EmbeddedImage)
              = Except.ok (ε := AsmErr) img := by
          rw [← h]
          simp [embedJpg, ht, hf]
        injection h2 with h3
        rw [← h3]
      | none =>
        have h2 : embedJpg (some b) = Except.error AsmErr.embedJpgFailed := by
          simp [embedJpg, ht, hf]
        rw [h2] at h
        exact Except.noConfusion h
    · have h2 : embedJpg (some b) = Except.error AsmErr.embedJpgFailed := by
        simp [embedJpg, ht]
      rw [h2] at h
      exact Except.noConfusion h

/-- A successful embed chose PNG exactly when the four-byte signature check
passed, and JPEG exactly when it failed. -/
theorem embedImage_kind (d : Option (List Nat)) (img : EmbeddedImage)
    (h : embedImage d = .ok img) :
    ((img.kind = .png) ↔ isPngSig4 (jsUint8Array d) = true)
    ∧ ((img.kind = .jpeg) ↔ isPngSig4 (jsUint8Array d) = false) := by
  unfold embedImage at h
  cases hs : isPngSig4 (jsUint8Array d) with
  | true =>
    rw [hs] at h
    simp only [↓reduceIte] at h
    have hk := embedPng_kind _ _ h
    simp [hk]
  | false =>
    rw [hs] at h
    simp only [Bool.false_eq_true, ↓reduceIte] at h
    have hk := embedJpg_kind _ _ h
    simp [hk]

/-- Structure of a successful `generatePdf` run: one page per input buffer,
each page built by `mkPage` from the successful embed of the buffer at the
same index. -/
theorem generatePdf_ok_spec :
    ∀ (arr : List (Option (List Nat))) (pages : List Page),
      generatePdf arr = .ok pages →
      pages.length = arr.length
      ∧ ∀ i : Nat, ∀ (hi : i < arr.length) (hp : i < pages.length),
          ∃ img : EmbeddedImage,
            embedImage (arr.get ⟨i, hi⟩) = .ok img
            ∧ pages.get ⟨i, hp⟩ = mkPage img := by
  intro arr
  induction arr with
  | nil =>
    intro pages h
    simp only [generatePdf, Except.ok.injEq] at h
    subst h
    exact ⟨rfl, fun i hi => absurd hi (by simp)⟩
  | cons d rest ih =>
    intro pages h
    cases he : embedImage d with
    | error e =>
      simp only [generatePdf, he] at h
      exact Except.noConfusion h
    | ok img =>
      cases hr : generatePdf rest with
      | error e =>
        simp only [generatePdf, he, hr] at h
        exact Except.noConfusion h
      | ok ps =>
        simp only [generatePdf, he, hr, Except.ok.injEq] at h
        subst h
        obtain ⟨ihlen, ihidx⟩ := ih ps hr
        refine ⟨by simp [ihlen], ?_⟩
        intro i hi hp
        cases i with
        | zero => exact ⟨img, he, rfl⟩
        | succ j =>
          have hj : j < rest.length := by simpa using hi
          have hjp : j < ps.length := by simpa using hp
          obtain ⟨img2, h1, h2⟩ := ihidx j hj hjp
          exact ⟨img2, h1, h2⟩

/-- Collapsing a run already in progress equals collapsing after skipping
the rest of that whitespace run. -/
theorem collapseRun_true_drop (l : List Char) :
    collapseRun true l = collapseRun false (l.dropWhile isJsWhitespace) := by
  induction l with
  | nil => rfl
  | cons c rest ih =>
    cases hc : isJsWhitespace c with
    | false => simp [collapseRun, List.dropWhile_cons, hc]
    | true => simp [collapseRun, List.dropWhile_cons, hc, ih]

/-- The scan implementing the global regex replace agrees with the direct
description of collapsing maximal whitespace runs. -/
theorem collapseRun_eq_spec (l : List Char) :
    collapseRun false l = specCollapseWs l := by
  generalize hn : l.length = n
  induction n using Nat.strong_induction_on generalizing l with
  | _ n ih =>
    cases l with
    | nil =>
      rw [specCollapseWs, collapseMaximalRuns]
      rfl
    | cons c rest =>
      rw [specCollapseWs, collapseMaximalRuns]
      cases hc : isJsWhitespace c with
      | true =>
        have hdrop := (List.dropWhile_suffix (l := rest) isJsWhitespace).length_le
        have hrec := ih (rest.dropWhile isJsWhitespace).length
          (by simp only [List.length_cons] at hn; omega)
          (rest.dropWhile isJsWhitespace) rfl
        simp [collapseRun, hc, collapseRun_true_drop, hrec, specCollapseWs]
      | false =>
        have hrec := ih rest.length
          (by simp only [List.length_cons] at hn; omega) rest rfl
        simp [collapseRun, hc, hrec, specCollapseWs]

/-! Claim theorems. -/

/-- C2: a capture request arriving while a session is active fails fast
with the busy condition and leaves the active session's stored state
unchanged; it is never queued and never replaces the running session. -/
theorem busy_request_rejected_state_unchanged :
    ∀ (s : Session) (env : OrchEnv) (tabId totalSlides : Nat),
      startCapture (some s) env tabId totalSlides
        = (.failure .busy, some s) := by
  intro s env tabId totalSlides
  rfl

/-- C3, evaluated at the failing input: with the default budget of 3 and
every attempt answering HTTP 429, `fetchImageWithRetry` falls off its loop
and returns the JS value `undefined` — not a thrown NetworkError and not
bytes. The claim that exhaustion surfaces an error is right about the
intent and wrong about this code path. -/
theorem fetch_429_exhaustion_returns_undefined :
    fetchImageWithRetry oracle429always 3 = (.undef, [1000, 2000, 3000])
    ∧ ∀ e : JsError, (fetchImageWithRetry oracle429always 3).1 ≠ .err e := by
  constructor
  · decide
  · intro e h
    have h0 : (fetchImageWithRetry oracle429always 3).1 = .undef := by decide
    rw [h0] at h
    exact FetchOutcome.noConfusion h

/-- C4 counterexample: assembling the empty image sequence does not fail —
no `AssemblyError` is possible on this input. -/
theorem assemble_empty_not_error :
    ¬ ∃ e : AsmErr, generatePdf [] = Except.error e := by
  rintro ⟨e, h⟩
  exact Except.noConfusion h

/-- C4 amended: assembling the empty sequence of page images succeeds and
returns the zero-page document; `generatePdf` performs no emptiness
check. -/
theorem assemble_empty_zero_pages : generatePdf [] = Except.ok [] := rfl

/-- C1 counterexample: in an environment where the URL list is obtained in
full, every byte fetch exhausts its retries with a transport error, and the
rendered-capture path would succeed, the orchestrator reports the network
error and ends the session — the same environment forced onto the
rendered-capture path completes, so the failure is not a fallback. -/
theorem direct_link_no_fallback_counterexample :
    startCapture none c1Env 1 1 = (.failure (.network .transport), none)
    ∧ startCapture none c1EnvNoApi 1 1
        = (.complete [⟨.png, 800, 600, 0, 0, 800, 600⟩] "Deck.pdf", none) :=
  ⟨rfl, rfl⟩

/-- C1 amended: once the direct-link strategy has obtained all page URLs,
a byte fetch that exhausts its retries fails the session — the error
reaches the catch block and is reported to the observer; the
rendered-capture fallback runs only when URL acquisition itself fails. -/
theorem direct_link_fetch_failure_fails_session :
    ∀ (env : OrchEnv) (tabId totalSlides : Nat) (topt : Option String)
      (urls : List String) (e : JsError),
      env.titleResp = .ok topt →
      fetchSlideUrlsViaApi env.apiResp totalSlides = some urls →
      fetchImagesFromUrls env.fetchOracle urls = .error e →
      startCapture none env tabId totalSlides
        = (.failure (.network e), none) := by
  intro env tabId totalSlides topt urls e ht hu hf
  simp [startCapture, ht, hu, hf]

/-- Witness for the amended C1 theorem at the concrete environment. -/
theorem direct_link_fetch_failure_fails_session_witness :
    startCapture none c1Env 2 1 = (.failure (.network .transport), none) :=
  direct_link_fetch_failure_fails_session c1Env 2 1 (some "Deck") ["u1"]
    .transport rfl rfl rfl

/-- C5: an attempt receiving HTTP 429 sleeps `hint * attempt` seconds
(recorded in milliseconds as `hint * 1000 * attempt`, the hint defaulting
to 2 when absent) and consumes exactly one unit of the shared attempt
budget; with a budget of at least 4, three consecutive 429 responses
followed by a 200 on attempt 4 return the fetched bytes after strictly
increasing inter-attempt delays. -/
theorem fetch_429_backoff :
    (∀ (resp : Nat → HttpResult) (m fuel attempt : Nat) (ra : Option Nat),
        resp attempt = .status429 ra →
        fetchLoop resp m (fuel + 1) attempt
          = ((fetchLoop resp m fuel (attempt + 1)).1,
              ra.getD 2 * 1000 * attempt
                :: (fetchLoop resp m fuel (attempt + 1)).2))
    ∧ ∀ (hint : Nat) (b : List Nat) (m : Nat),
        1 ≤ hint → 4 ≤ m →
        fetchImageWithRetry (oracle429then200 hint b) m
          = (.bytes b, [hint * 1000 * 1, hint * 1000 * 2, hint * 1000 * 3])
        ∧ hint * 1000 * 1 < hint * 1000 * 2
        ∧ hint * 1000 * 2 < hint * 1000 * 3 := by
  constructor
  · exact fetchLoop_429_step
  · intro hint b m h1 h4
    obtain ⟨k, rfl⟩ : ∃ k, m = k + 4 := ⟨m - 4, by omega⟩
    refine ⟨?_, by omega, by omega⟩
    have o1 : oracle429then200 hint b 1 = .status429 (some hint) := rfl
    have o2 : oracle429then200 hint b 2 = .status429 (some hint) := rfl
    have o3 : oracle429then200 hint b 3 = .status429 (some hint) := rfl
    have o4 : oracle429then200 hint b 4 = .success b := rfl
    have e4 : fetchLoop (oracle429then200 hint b) (k + 4) (k + 1) 4
        = (.bytes b, []) := by
      simp [fetchLoop, o4]
    have e3 := fetchLoop_429_step (oracle429then200 hint b) (k + 4) (k + 1) 3
      (some hint) o3
    have e2 := fetchLoop_429_step (oracle429then200 hint b) (k + 4) (k + 2) 2
      (some hint) o2
    have e1 := fetchLoop_429_step (oracle429then200 hint b) (k + 4) (k + 3) 1
      (some hint) o1
    show fetchLoop (oracle429then200 hint b) (k + 4) (k + 3 + 1) 1 = _
    rw [e1]
    rw [show k + 3 = k + 2 + 1 from rfl] at *
    rw [e2]
    rw [show k + 2 = k + 1 + 1 from rfl] at *
    rw [e3, e4]
    simp

/-- Witness for C5: both conjuncts applied at concrete inputs. -/
theorem fetch_429_backoff_witness :
    fetchLoop oracle429always 9 1 2
        = ((fetchLoop oracle429always 9 0 3).1,
            1 * 1000 * 2 :: (fetchLoop oracle429always 9 0 3).2)
    ∧ fetchImageWithRetry (oracle429then200 1 [7]) 4
        = (.bytes [7], [1 * 1000 * 1, 1 * 1000 * 2, 1 * 1000 * 3]) := by
  constructor
  · exact fetch_429_backoff.1 oracle429always 9 0 2 (some 1) rfl
  · exact (fetch_429_backoff.2 1 [7] 4 (by decide) (by decide)).1

/-- C6: a numeric pair found by Page Locator heuristic 2 is accepted
exactly when `1 ≤ current ≤ total` and `total ≤ 500` (which subsumes
`1 ≤ total`); otherwise — in particular when `total > 500` or
`current > total` — control falls through to heuristic 3. -/
theorem heuristic2_bounds :
    ∀ (d : DocView) (c t : Nat),
      d.pageLabelMatch = none → d.bodyTextMatch = some (c, t) →
      ((1 ≤ c ∧ c ≤ t ∧ t ≤ 500) → getSlideInfo d = some (c, t))
      ∧ (¬(1 ≤ c ∧ c ≤ t ∧ t ≤ 500) → getSlideInfo d = slideInfoFrom3 d) := by
  intro d c t hp hb
  simp only [getSlideInfo, slideInfoFrom2, hp, hb]
  by_cases hcond : 1 ≤ t ∧ t ≤ 500 ∧ 1 ≤ c ∧ c ≤ t
  · rw [if_pos hcond]
    refine ⟨fun _ => rfl, fun hn => absurd ?_ hn⟩
    omega
  · rw [if_neg hcond]
    refine ⟨fun h => absurd ?_ hcond, fun _ => rfl⟩
    omega

/-- Witness for C6 at a pair inside the bounds. -/
theorem heuristic2_bounds_witness : getSlideInfo bodyDoc = some (2, 10) :=
  (heuristic2_bounds bodyDoc 2 10 rfl rfl).1 (by decide)

/-- C7: in every successful assembly there is one page per buffer; the
buffer at index i was embedded as PNG exactly when its first four bytes are
the PNG signature and as JPEG otherwise, and its page is sized exactly to
the embed's native pixel dimensions with the image drawn at origin filling
the page; in particular a PNG of 800x600 followed by a JPEG of 1024x768
yields exactly two pages of those dimensions. -/
theorem generatePdf_assembles_each_image :
    (∀ (arr : List (Option (List Nat))) (pages : List Page),
        generatePdf arr = .ok pages →
        pages.length = arr.length
        ∧ ∀ i : Nat, ∀ (hi : i < arr.length) (hp : i < pages.length),
            ∃ img : EmbeddedImage,
              embedImage (arr.get ⟨i, hi⟩) = .ok img
              ∧ pages.get ⟨i, hp⟩ = mkPage img
              ∧ ((img.kind = .png)
                  ↔ isPngSig4 (jsUint8Array (arr.get ⟨i, hi⟩)) = true)
              ∧ ((img.kind = .jpeg)
                  ↔ isPngSig4 (jsUint8Array (arr.get ⟨i, hi⟩)) = false)
              ∧ (pages.get ⟨i, hp⟩).width = img.width
              ∧ (pages.get ⟨i, hp⟩).height = img.height
              ∧ (pages.get ⟨i, hp⟩).drawX = 0
              ∧ (pages.get ⟨i, hp⟩).drawY = 0
              ∧ (pages.get ⟨i, hp⟩).drawW = img.width
              ∧ (pages.get ⟨i, hp⟩).drawH = img.height)
    ∧ generatePdf [some (pngBytesFor 800 600), some (jpegBytesFor 1024 768)]
        = .ok [⟨.png, 800, 600, 0, 0, 800, 600⟩,
               ⟨.jpeg, 1024, 768, 0, 0, 1024, 768⟩] := by
  constructor
  · intro arr pages h
    obtain ⟨hlen, hidx⟩ := generatePdf_ok_spec arr pages h
    refine ⟨hlen, ?_⟩
    intro i hi hp
    obtain ⟨img, he, hpg⟩ := hidx i hi hp
    obtain ⟨k1, k2⟩ := embedImage_kind _ img he
    exact ⟨img, he, hpg, k1, k2, by rw [hpg]; rfl, by rw [hpg]; rfl,
      by rw [hpg]; rfl, by rw [hpg]; rfl, by rw [hpg]; rfl, by rw [hpg]; rfl⟩
  · rfl

/-- Witness for C7 applying the universal part at the concrete two-image
input. -/
theorem generatePdf_assembles_each_image_witness :
    ([⟨.png, 800, 600, 0, 0, 800, 600⟩,
      ⟨.jpeg, 1024, 768, 0, 0, 1024, 768⟩] : List Page).length
      = [some (pngBytesFor 800 600), some (jpegBytesFor 1024 768)].length :=
  (generatePdf_assembles_each_image.1
    [some (pngBytesFor 800 600), some (jpegBytesFor 1024 768)]
    [⟨.png, 800, 600, 0, 0, 800, 600⟩, ⟨.jpeg, 1024, 768, 0, 0, 1024, 768⟩]
    rfl).1

/-- C8 counterexample: with all heuristics failing and a gate container
whose computed style is visible but whose bounding box has zero height, the
handler reports gated access although the claim's visibility criterion
(display, visibility AND nonzero bounding box) is not met — the code checks
the bounding box only for the email input. -/
theorem gated_access_zero_box_counterexample :
    handleGetSlideInfo gateDocZeroBox = .authRequired
    ∧ claimGateVisible gateDocZeroBox = false :=
  ⟨rfl, rfl⟩

/-- C8 amended: gated access is reported exactly when every page-count
heuristic fails and the code's gating check passes, where the nonzero
bounding box is required only of the email input and gate containers are
judged by computed display/visibility alone; when everything fails and the
gating check is false the undetectable error is reported; and any
successful heuristic pre-empts the gate check entirely. -/
theorem gated_access_exact :
    ∀ d : DocView,
      (handleGetSlideInfo d = .authRequired
        ↔ getSlideInfo d = none ∧ isAuthRequired d = true)
      ∧ (getSlideInfo d = none ∧ isAuthRequired d = false →
          handleGetSlideInfo d = .failure undetectableMsg)
      ∧ ∀ c t : Nat, getSlideInfo d = some (c, t) →
          handleGetSlideInfo d = .info c t d.docTitle := by
  intro d
  cases hs : getSlideInfo d with
  | some p =>
    obtain ⟨c, t⟩ := p
    refine ⟨by simp [handleGetSlideInfo, hs], by simp [hs], ?_⟩
    intro c2 t2 h2
    simp only [Option.some.injEq, Prod.mk.injEq] at h2
    obtain ⟨rfl, rfl⟩ := h2
    simp [handleGetSlideInfo, hs]
  | none =>
    cases ha : isAuthRequired d with
    | true =>
      refine ⟨by simp [handleGetSlideInfo, hs, ha], by simp [ha], ?_⟩
      intro c t h2
      exact Option.noConfusion h2
    | false =>
      refine ⟨by simp [handleGetSlideInfo, hs, ha], ?_, ?_⟩
      · intro _
        simp [handleGetSlideInfo, hs, ha]
      · intro c t h2
        exact Option.noConfusion h2

/-- Witness for C8 at a view with a visible email input. -/
theorem gated_access_exact_witness :
    handleGetSlideInfo gateDocEmail = .authRequired :=
  (gated_access_exact gateDocEmail).1.mpr ⟨rfl, rfl⟩

/-- C9: the derived filename equals the spec's description — strip illegal
characters, collapse each maximal whitespace run to one hyphen, truncate to
100 characters, default exactly when the result is empty. -/
theorem safeName_refines_spec :
    ∀ filename : String, safeName filename = specSafeName filename := by
  intro f
  simp only [safeName, specSafeName, collapseRun_eq_spec, List.isEmpty_iff]

/-- C10: a pair parsed by heuristic 1 from a page-label element is returned
with no bounds validation, and the handler answers with it directly — no
later heuristic and no gate check can intervene. -/
theorem heuristic1_unvalidated :
    ∀ (d : DocView) (c t : Nat),
      d.pageLabelMatch = some (c, t) →
      getSlideInfo d = some (c, t)
      ∧ handleGetSlideInfo d = .info c t d.docTitle := by
  intro d c t h
  refine ⟨by simp [getSlideInfo, h], by simp [handleGetSlideInfo, getSlideInfo, h]⟩

/-- Witness for C10 at a pair violating both heuristic-2 bounds
(current 700 > total 600 > 500). -/
theorem heuristic1_unvalidated_witness :
    getSlideInfo labelDoc = some (700, 600)
    ∧ handleGetSlideInfo labelDoc = .info 700 600 labelDoc.docTitle :=
  heuristic1_unvalidated labelDoc 700 600 rfl

end Docsend
